import Mathlib

/- Shallow embedding of src/blurnet/train.py (blur-training_cifar10).
   Python ints are modelled as ZZ (Int), floats as QQ (Rat), strings as String.
   The filesystem is the list of existing paths; stdout/stderr are lists of
   printed lines, split into the original console and the redirected log file. -/

set_option autoImplicit false

/-- Command-line arguments of train.py (parser, lines 17-36), together with the
`cuda` attribute that line 64 adds at run time (`none` right after parsing).
`--exp-name` defaults to the empty string, `--kernel-size` takes two ints,
`--sigma`, `--lr` and `--weight-decay` are floats (modelled as rationals). -/
structure Args where
  no_cuda : Bool
  seed : ℤ
  exp_name : String
  normal : Bool
  kernel_size : ℤ × ℤ
  sigma : ℚ
  epochs : ℤ
  batch_size : ℤ
  lr : ℚ
  weight_decay : ℚ
  cuda : Option Bool
deriving DecidableEq, Repr

/-- Line 64: `args.cuda = not args.no_cuda and torch.cuda.is_available()`.
This is the only assignment to any attribute of `args` anywhere in the script;
every other use of `args` is a read. -/
def argsWithCuda (a : Args) (cudaAvailable : Bool) : Args :=
  { a with cuda := some (!a.no_cuda && cudaAvailable) }

/-- The message printed at line 41 when the experiment name is empty. -/
def expNameErrMsg : String :=
  "ERROR: USE \x27--exp-name\x27 or \x27-n\x27 option to define this experiment\x27s name."

/-- The message printed at line 53 when the experiment name is already used. -/
def dupNameErrMsg : String :=
  "ERROR: This \x27--exp-name\x27 is already used. Use another name for this experiment."

/-- The diagnostic an uncaught NameError for RESULT_PATH produces on stderr. -/
def nameErrTraceback : String :=
  "NameError: name \x27RESULT_PATH\x27 is not defined"

/-- Line 48: `OUTPUT_PATH = '../logs/outputs/{}.log'.format(args.exp_name)`. -/
def OUTPUT_PATH (args : Args) : String :=
  "../logs/outputs/" ++ args.exp_name ++ ".log"

/-- Line 49: `MODEL_PATH = '../logs/models/{}/'.format(args.exp_name)`. -/
def MODEL_PATH (args : Args) : String :=
  "../logs/models/" ++ args.exp_name ++ "/"

/-- The local string variables of `main` that are bound before line 52 runs
(lines 48-49). `RESULT_PATH` is never bound anywhere in the script, neither
locally, nor at module level, nor by the selective import at line 13. -/
def mainLocals (args : Args) : List (String × String) :=
  [("OUTPUT_PATH", OUTPUT_PATH args), ("MODEL_PATH", MODEL_PATH args)]

/-- Python name resolution over a binding list: the value of the first binding
of `x`, or `none` (a NameError) when `x` is unbound. -/
def lookupVar (env : List (String × String)) (x : String) : Option String :=
  (env.find? (fun p => p.1 == x)).map (fun p => p.2)

/-- State of the process environment: existing filesystem paths, lines written
to the original console streams, lines written to the redirected log file, and
whether lines 57-58 have redirected stdout/stderr. -/
structure SysState where
  fs : List String
  console : List String
  log : List String
  redirected : Bool
deriving DecidableEq, Repr

/-- Observable events of the setup part of `main` (lines 38-58). -/
inductive PEv where
  | consolePrint (s : String)
  | mkdir (path : String)
  | raiseExc (exc : String)
  | redirectStdoutTo (path : String)
  | redirectStderrTo (path : String)
deriving DecidableEq, Repr

/-- How the setup part of `main` ends: `exited` is `sys.exit()` with no
argument (SystemExit(None), process exit status 0), `raised` is an uncaught
exception (process exit status 1), `proceeded` means control reaches line 61
and the rest of the script runs. -/
inductive Outcome where
  | exited
  | raised (exc : String)
  | proceeded
deriving DecidableEq, Repr

/-- Process exit status for a terminating outcome. -/
def exitStatus : Outcome → ℕ
  | Outcome.exited => 0
  | Outcome.raised _ => 1
  | Outcome.proceeded => 0

/-- Result of running lines 38-58: final environment state, event trace,
and how that prefix of `main` ended. -/
structure SetupRes where
  state : SysState
  trace : List PEv
  outcome : Outcome
deriving DecidableEq, Repr

/-- `os.makedirs(p, exist_ok=True)`: adds the path if it is not present. -/
def addPath (fs : List String) (p : String) : List String :=
  if p ∈ fs then fs else fs ++ [p]

/-- Lines 38-58 of `main`: the empty-name check (40-42), directory creation
(45-46), path bindings (48-49), the duplicate-name check (52-54) -- whose
condition reads the unbound variable `RESULT_PATH` -- and the stream
redirection (57-58). -/
def mainSetup (args : Args) (st : SysState) : SetupRes :=
  if args.exp_name = "" then
    { state := { st with console := st.console ++ [expNameErrMsg] },
      trace := [PEv.consolePrint expNameErrMsg],
      outcome := Outcome.exited }
  else
    let st1 : SysState :=
      { st with fs := addPath (addPath st.fs "../logs/outputs")
                              ("../logs/models/" ++ args.exp_name) }
    let tr1 : List PEv :=
      [PEv.mkdir "../logs/outputs", PEv.mkdir ("../logs/models/" ++ args.exp_name)]
    match lookupVar (mainLocals args) "RESULT_PATH" with
    | none =>
      { state := { st1 with console := st1.console ++ [nameErrTraceback] },
        trace := tr1 ++ [PEv.raiseExc "NameError"],
        outcome := Outcome.raised "NameError" }
    | some p =>
      if p ∈ st1.fs then
        { state := { st1 with console := st1.console ++ [dupNameErrMsg] },
          trace := tr1 ++ [PEv.consolePrint dupNameErrMsg],
          outcome := Outcome.exited }
      else
        { state := { st1 with redirected := true },
          trace := tr1 ++ [PEv.redirectStdoutTo (OUTPUT_PATH args),
                           PEv.redirectStderrTo (OUTPUT_PATH args)],
          outcome := Outcome.proceeded }

/- Concrete instances used by witnesses and counterexamples. -/

/-- A fresh environment: empty filesystem, nothing printed, not redirected. -/
def stEmpty : SysState := ⟨[], [], [], false⟩

/-- Default arguments with the experiment name left empty. -/
def argsEmptyName : Args := ⟨false, 42, "", false, (3, 3), 1, 50, 64, 1/100, 1/2000, none⟩

/-- Default arguments with experiment name `exp1`. -/
def argsExp1 : Args := ⟨false, 42, "exp1", false, (3, 3), 1, 50, 64, 1/100, 1/2000, none⟩

/-- An environment in which experiment `exp1` has already been run: its log
file and model directory exist. -/
def stExp1Used : SysState :=
  ⟨["../logs/outputs", "../logs/outputs/exp1.log", "../logs/models/exp1"], [], [], false⟩

/- The training loop (lines 61-164). The neural network, loss, optimizer and
data loaders are external-framework objects (torch, utils, models); they are
abstracted below, while the control flow, accumulator arithmetic and event
order of lines 97-158 are embedded from the source. -/

/-- An input image: either a raw dataset image or the result of applying the
Gaussian blur with some kernel size and sigma to an image. -/
inductive Image where
  | raw (id : ℕ)
  | blurred (kernel : ℤ × ℤ) (sigma : ℚ) (im : Image)
deriving DecidableEq, Repr

/-- One batch yielded by a data loader: images and integer class labels. -/
structure Batch where
  images : List Image
  labels : List ℕ
deriving DecidableEq, Repr

/-- Modelled from the spec: `GaussianBlur_images` is imported from `utils`,
whose source is not under src/; per the spec it is the Gaussian-blur
preprocessing transform applied to the input images, parameterized by kernel
size and sigma. Modelled as tagging every image of the batch with the blur
parameters. The `.cpu()` and `.to(device)` moves around the call (lines
112-114) are device transfers, identities here. -/
def GaussianBlur_images (imgs : List Image) (kernel : ℤ × ℤ) (sigma : ℚ) : List Image :=
  imgs.map (fun im => Image.blurred kernel sigma im)

/-- The mutable state owned by the training loop: the model parameters
(`net`'s state) and the optimizer state, each abstracted as a version. -/
structure NetOpt where
  params : ℕ
  ostate : ℕ
deriving DecidableEq, Repr

/-- Abstraction of the external-framework calls of the loop body: the scalar
`criterion(net(inputs), labels).item()`, the correct-prediction count
`(outputs.max(1)[1] == labels).sum().item()` -- both functions of the current
parameters and the batch -- and the effect of `optimizer.step()` after
`loss.backward()` on parameters and optimizer state. -/
structure Framework where
  lossItem : ℕ → List Image → List ℕ → ℚ
  correct : ℕ → List Image → List ℕ → ℕ
  optStep : NetOpt → NetOpt

/-- Observable events of the training loop. -/
inductive TEv where
  | netTrain
  | netEval
  | zeroGrad
  | forward (inputs : List Image)
  | backward
  | optStep
  | addScalar (tag : String) (value : ℚ) (step : ℕ)
  | ckptWrite (epoch : ℕ) (arch : String) (params : ℕ) (ostate : ℕ)
  | ckptRead
deriving DecidableEq, Repr

/-- Result of processing one batch: new loop state, `loss.item()`, the
correct-prediction count, and the emitted events. -/
structure BatchRes where
  no : NetOpt
  lossVal : ℚ
  correctVal : ℕ
  evs : List TEv
deriving Repr

/-- Result of a full pass: final loop state, the running loss sum, the running
correct-prediction sum, and the emitted events. -/
structure PassRes where
  no : NetOpt
  lossSum : ℚ
  accSum : ℕ
  evs : List TEv
deriving Repr

/-- Lines 106-125: one iteration of the training batch loop. When `--normal`
is absent the inputs are blurred with the configured kernel size and sigma
(lines 111-114); then `optimizer.zero_grad()`, the forward pass, the loss and
accuracy reads, `loss.backward()` and `optimizer.step()`. -/
def trainBatch (args : Args) (F : Framework) (no : NetOpt) (data : Batch) : BatchRes :=
  let inputs :=
    if args.normal = false
    then GaussianBlur_images data.images args.kernel_size args.sigma
    else data.images
  { no := F.optStep no,
    lossVal := F.lossItem no.params inputs data.labels,
    correctVal := F.correct no.params inputs data.labels,
    evs := [TEv.zeroGrad, TEv.forward inputs, TEv.backward, TEv.optStep] }

/-- Lines 106-125: the training pass over all batches of `trainloader`,
accumulating `train_loss` and `train_acc` from their per-epoch reset value 0. -/
def trainPass (args : Args) (F : Framework) : NetOpt → List Batch → PassRes
  | no, [] => ⟨no, 0, 0, []⟩
  | no, b :: bs =>
    let r := trainBatch args F no b
    let rest := trainPass args F r.no bs
    ⟨rest.no, r.lossVal + rest.lossSum, r.correctVal + rest.accSum, r.evs ++ rest.evs⟩

/-- Lines 134-145: one iteration of the validation loop, under
`torch.no_grad()`. The blur call there is commented out (lines 136-141), so
the images go to the forward pass unmodified, and nothing touches the
parameters: no zero_grad, no backward, no optimizer step. -/
def valBatch (F : Framework) (no : NetOpt) (data : Batch) : BatchRes :=
  { no := no,
    lossVal := F.lossItem no.params data.images data.labels,
    correctVal := F.correct no.params data.images data.labels,
    evs := [TEv.forward data.images] }

/-- Lines 132-145: the validation pass over all batches of `testloader`,
accumulating `val_loss` and `val_acc` from their per-epoch reset value 0. -/
def valPass (F : Framework) : NetOpt → List Batch → PassRes
  | no, [] => ⟨no, 0, 0, []⟩
  | no, b :: bs =>
    let r := valBatch F no b
    let rest := valPass F r.no bs
    ⟨rest.no, r.lossVal + rest.lossSum, r.correctVal + rest.accSum, r.evs ++ rest.evs⟩

/-- Line 97: `num_trainbatch = -(-len(trainloader.dataset) / trainloader.batch_size)`.
Python 3 `/` is true division, so this is the exact rational quotient with the
signs cancelling, not the `-(-a // b)` ceiling idiom. -/
def num_trainbatch (datasetLen batchSize : ℤ) : ℚ :=
  -(-(datasetLen : ℚ) / (batchSize : ℚ))

/-- Line 98: `num_testbatch = -(-len(testloader.dataset) / testloader.batch_size)`,
same true-division formula as line 97. -/
def num_testbatch (datasetLen batchSize : ℤ) : ℚ :=
  -(-(datasetLen : ℚ) / (batchSize : ℚ))

/-- Modelled from the spec: `save_checkpoint` is imported from `utils`, whose
source is not under src/; per the spec it writes one checkpoint file per call
to persistent storage and nothing in the script ever reads a checkpoint back.
Modelled as emitting a single checkpoint-write event carrying the record of
lines 153-157: epoch index, architecture tag, parameter snapshot, optimizer
state. -/
def save_checkpoint (epoch : ℕ) (arch : String) (params ostate : ℕ) : List TEv :=
  [TEv.ckptWrite epoch arch params ostate]

/-- Lines 101-158: the body of one epoch, for 0-based `epoch`. In source
order: `net.train()`, the training batch loop, the two train-metric
`add_scalar` calls (lines 128-129), `net.eval()`, the validation loop, the two
validation-metric `add_scalar` calls (lines 148-149), then `save_checkpoint`
with epoch index `epoch + 1` and architecture tag `alexnet`. `nTrain` and
`nTest` are `len(trainloader.dataset)` and `len(testloader.dataset)`. -/
def epochBody (args : Args) (F : Framework) (trainB testB : List Batch)
    (nTrain nTest : ℤ) (no : NetOpt) (epoch : ℕ) : NetOpt × List TEv :=
  let t := trainPass args F no trainB
  let logTrain : List TEv :=
    [TEv.addScalar "loss/train" (t.lossSum / num_trainbatch nTrain args.batch_size) (epoch + 1),
     TEv.addScalar "acc/train" ((t.accSum : ℚ) / (nTrain : ℚ)) (epoch + 1)]
  let v := valPass F t.no testB
  let logVal : List TEv :=
    [TEv.addScalar "loss/val" (v.lossSum / num_testbatch nTest args.batch_size) (epoch + 1),
     TEv.addScalar "acc/val" ((v.accSum : ℚ) / (nTest : ℚ)) (epoch + 1)]
  (v.no,
   TEv.netTrain :: t.evs ++ logTrain ++ TEv.netEval :: v.evs ++ logVal ++
     save_checkpoint (epoch + 1) "alexnet" v.no.params v.no.ostate)

/-- Python `range(n)` for a possibly negative int `n`. -/
def pyRange (n : ℤ) : List ℕ := List.range n.toNat

/-- The epoch loop over a list of (0-based) epoch indices, threading the loop
state and collecting one event trace per epoch. -/
def loopEpochs (args : Args) (F : Framework) (trainB testB : List Batch)
    (nTrain nTest : ℤ) : NetOpt → List ℕ → NetOpt × List (List TEv)
  | no, [] => (no, [])
  | no, e :: es =>
    let r := epochBody args F trainB testB nTrain nTest no e
    let rest := loopEpochs args F trainB testB nTrain nTest r.1 es
    (rest.1, r.2 :: rest.2)

/-- Line 101: `for epoch in range(args.epochs)` over the epoch body. -/
def trainingLoop (args : Args) (F : Framework) (trainB testB : List Batch)
    (nTrain nTest : ℤ) (no : NetOpt) : NetOpt × List (List TEv) :=
  loopEpochs args F trainB testB nTrain nTest no (pyRange args.epochs)

/-- Events a training batch iteration emits: zero_grad, forward, backward,
optimizer step. -/
def isBatchEv : TEv → Bool
  | TEv.zeroGrad => true
  | TEv.forward _ => true
  | TEv.backward => true
  | TEv.optStep => true
  | _ => false

/-- The checkpoint record carried by a checkpoint-write event, if any. -/
def ckptField : TEv → Option (ℕ × String × ℕ × ℕ)
  | TEv.ckptWrite n a p s => some (n, a, p, s)
  | _ => none

/-- All checkpoint records written in a trace, in order. -/
def ckptsOf (t : List TEv) : List (ℕ × String × ℕ × ℕ) :=
  t.filterMap ckptField

/- Concrete loop instances used by witnesses and counterexamples. -/

/-- A concrete framework instance: every batch has loss 1 and 0 correct
predictions, and each optimizer step bumps both state versions. -/
def Fc : Framework :=
  ⟨fun _ _ _ => 1, fun _ _ _ => 0, fun no => ⟨no.params + 1, no.ostate + 1⟩⟩

/-- A concrete training batch. -/
def b1 : Batch := ⟨[Image.raw 1], [1]⟩

/-- A concrete validation batch. -/
def vb : Batch := ⟨[Image.raw 0], [0]⟩

/-- The initial loop state. -/
def no0 : NetOpt := ⟨0, 0⟩

/-- Small concrete arguments in blur mode (no `--normal`), batch size 2,
2 epochs. -/
def argsBlurSmall : Args := ⟨false, 0, "exp1", false, (3, 3), 1, 2, 2, 1/100, 1/2000, none⟩

/-- Small concrete arguments in normal mode (`--normal` given), batch size 2,
2 epochs. -/
def argsNormalSmall : Args := ⟨false, 0, "exp1", true, (3, 3), 1, 2, 2, 1/100, 1/2000, none⟩

/- Helper lemmas. -/

/-- `RESULT_PATH` is unbound in `main`, whatever the arguments are. -/
theorem lookup_RESULT_PATH (args : Args) :
    lookupVar (mainLocals args) "RESULT_PATH" = none := rfl

/-- A path is a member of the filesystem after `addPath` adds it. -/
theorem mem_addPath_self (fs : List String) (p : String) : p ∈ addPath fs p := by
  unfold addPath
  split
  · assumption
  · simp

/-- `addPath` keeps every existing path. -/
theorem mem_addPath_of_mem (fs : List String) (p q : String) (h : q ∈ fs) :
    q ∈ addPath fs p := by
  unfold addPath
  split
  · exact h
  · exact List.mem_append_left _ h

/- Claim theorems about the setup part. -/

/-- C6: whenever `--exp-name` is absent or empty (argparse default is the
empty string), `main` prints the error message to the original console and
exits, with no directory created, no stream redirected, nothing written to a
log file, and no training started (the trace holds only the print event). -/
theorem C6_empty_name_early_exit (args : Args) (st : SysState)
    (h : args.exp_name = "") :
    (mainSetup args st).outcome = Outcome.exited ∧
    (mainSetup args st).state.console = st.console ++ [expNameErrMsg] ∧
    (mainSetup args st).state.fs = st.fs ∧
    (mainSetup args st).state.redirected = st.redirected ∧
    (mainSetup args st).state.log = st.log ∧
    (mainSetup args st).trace = [PEv.consolePrint expNameErrMsg] := by
  simp [mainSetup, h]

/-- Witness for C6 at the concrete empty-name invocation. -/
theorem C6_empty_name_early_exit_witness :
    argsEmptyName.exp_name = "" ∧
    ((mainSetup argsEmptyName stEmpty).outcome = Outcome.exited ∧
     (mainSetup argsEmptyName stEmpty).state.console = stEmpty.console ++ [expNameErrMsg] ∧
     (mainSetup argsEmptyName stEmpty).state.fs = stEmpty.fs ∧
     (mainSetup argsEmptyName stEmpty).state.redirected = stEmpty.redirected ∧
     (mainSetup argsEmptyName stEmpty).state.log = stEmpty.log ∧
     (mainSetup argsEmptyName stEmpty).trace = [PEv.consolePrint expNameErrMsg]) :=
  ⟨rfl, C6_empty_name_early_exit argsEmptyName stEmpty rfl⟩

/-- C1: evaluated on a run whose experiment name `exp1` is non-empty and
already in use (log file and model directory exist), line 52 raises a
NameError -- `RESULT_PATH` is unbound -- so `main` terminates with an uncaught
exception and never prints the choose-another-name message: the intended
duplicate-name early exit of the claim does not happen. -/
theorem C1_dup_name_check_raises :
    (mainSetup argsExp1 stExp1Used).outcome = Outcome.raised "NameError" ∧
    (mainSetup argsExp1 stExp1Used).trace =
      [PEv.mkdir "../logs/outputs", PEv.mkdir "../logs/models/exp1",
       PEv.raiseExc "NameError"] ∧
    PEv.consolePrint dupNameErrMsg ∉ (mainSetup argsExp1 stExp1Used).trace ∧
    dupNameErrMsg ∉ (mainSetup argsExp1 stExp1Used).state.console := by
  refine ⟨rfl, rfl, ?_, ?_⟩ <;> decide

/-- C9 counterexample: a duplicate-name run (non-empty used name `exp1`) does
not exit with status 0 through `sys.exit()`: it dies of the uncaught NameError
with process exit status 1, so the claim that both validation failures yield
exit status 0 is false. -/
theorem C9_counterexample :
    exitStatus (mainSetup argsExp1 stExp1Used).outcome = 1 ∧
    (mainSetup argsExp1 stExp1Used).outcome ≠ Outcome.exited := by
  refine ⟨rfl, ?_⟩
  decide

/-- C9 amended: the empty-name validation terminates through `sys.exit()` with
no argument, hence exit status 0; with any non-empty name the duplicate-name
check itself raises NameError (its `sys.exit()` is unreachable), and the
process terminates with exit status 1. -/
theorem C9_exit_status (args : Args) (st : SysState) :
    (mainSetup args st).outcome =
      (if args.exp_name = "" then Outcome.exited else Outcome.raised "NameError") ∧
    exitStatus (mainSetup args st).outcome =
      (if args.exp_name = "" then 0 else 1) := by
  by_cases h : args.exp_name = "" <;>
    simp [mainSetup, h, lookup_RESULT_PATH, exitStatus]

/-- C10: on every run with a non-empty experiment name, the two directory
creations happen before the duplicate-name check runs (the check is the
trailing NameError event of the trace), no stream is ever redirected, both
directories exist in the final state, nothing is written to a log file, and
the error output lands on the original console. -/
theorem C10_dirs_before_check (args : Args) (st : SysState)
    (h : args.exp_name ≠ "") :
    (mainSetup args st).trace =
      [PEv.mkdir "../logs/outputs", PEv.mkdir ("../logs/models/" ++ args.exp_name),
       PEv.raiseExc "NameError"] ∧
    "../logs/outputs" ∈ (mainSetup args st).state.fs ∧
    ("../logs/models/" ++ args.exp_name) ∈ (mainSetup args st).state.fs ∧
    (mainSetup args st).state.redirected = st.redirected ∧
    (mainSetup args st).state.log = st.log ∧
    (mainSetup args st).state.console = st.console ++ [nameErrTraceback] := by
  unfold mainSetup
  rw [if_neg h, lookup_RESULT_PATH]
  exact ⟨rfl, mem_addPath_of_mem _ _ _ (mem_addPath_self _ _),
         mem_addPath_self _ _, rfl, rfl, rfl⟩

/-- Witness for C10 at the concrete duplicate-name run. -/
theorem C10_dirs_before_check_witness :
    argsExp1.exp_name ≠ "" ∧
    ((mainSetup argsExp1 stExp1Used).trace =
      [PEv.mkdir "../logs/outputs",
       PEv.mkdir ("../logs/models/" ++ argsExp1.exp_name),
       PEv.raiseExc "NameError"] ∧
     "../logs/outputs" ∈ (mainSetup argsExp1 stExp1Used).state.fs ∧
     ("../logs/models/" ++ argsExp1.exp_name) ∈ (mainSetup argsExp1 stExp1Used).state.fs ∧
     (mainSetup argsExp1 stExp1Used).state.redirected = stExp1Used.redirected ∧
     (mainSetup argsExp1 stExp1Used).state.log = stExp1Used.log ∧
     (mainSetup argsExp1 stExp1Used).state.console =
       stExp1Used.console ++ [nameErrTraceback]) :=
  ⟨by decide, C10_dirs_before_check argsExp1 stExp1Used (by decide)⟩

/-- C8: the script's single assignment to an `args` attribute (line 64, which
adds `cuda`) leaves every parsed configuration field -- seed, batch size,
learning rate, weight decay, epoch count, kernel size, sigma, experiment name,
normal flag, no-cuda flag -- unchanged; no other statement of the script
writes to `args`, so the parsed values persist for the run's lifetime. -/
theorem C8_config_immutable (a : Args) (c : Bool) :
    (argsWithCuda a c).seed = a.seed ∧
    (argsWithCuda a c).batch_size = a.batch_size ∧
    (argsWithCuda a c).lr = a.lr ∧
    (argsWithCuda a c).weight_decay = a.weight_decay ∧
    (argsWithCuda a c).epochs = a.epochs ∧
    (argsWithCuda a c).kernel_size = a.kernel_size ∧
    (argsWithCuda a c).sigma = a.sigma ∧
    (argsWithCuda a c).exp_name = a.exp_name ∧
    (argsWithCuda a c).normal = a.normal ∧
    (argsWithCuda a c).no_cuda = a.no_cuda :=
  ⟨rfl, rfl, rfl, rfl, rfl, rfl, rfl, rfl, rfl, rfl⟩

/- Helper lemmas about the training loop. -/

/-- Every event of a training pass is a batch event. -/
theorem trainPass_evs_batch (args : Args) (F : Framework) :
    ∀ (bs : List Batch) (no : NetOpt),
      ∀ x ∈ (trainPass args F no bs).evs, isBatchEv x = true := by
  intro bs
  induction bs with
  | nil =>
    intro no x hx
    simp [trainPass] at hx
  | cons b bs ih =>
    intro no x hx
    simp only [trainPass, List.mem_append] at hx
    rcases hx with hx | hx
    · simp only [trainBatch, List.mem_cons, List.mem_singleton,
                 List.not_mem_nil, or_false] at hx
      rcases hx with h | h | h | h <;> subst h <;> rfl
    · exact ih _ x hx

/-- A training pass performs exactly one optimizer step per batch. -/
theorem trainPass_count_optStep (args : Args) (F : Framework) :
    ∀ (bs : List Batch) (no : NetOpt),
      (trainPass args F no bs).evs.count TEv.optStep = bs.length := by
  intro bs
  induction bs with
  | nil => intro no; rfl
  | cons b bs ih =>
    intro no
    simp [trainPass, List.count_append, trainBatch, ih, List.count_cons]

/-- The events of a validation pass are exactly one forward per batch, on the
batch's unmodified images. -/
theorem valPass_evs (F : Framework) :
    ∀ (bs : List Batch) (no : NetOpt),
      (valPass F no bs).evs = bs.map (fun b => TEv.forward b.images) := by
  intro bs
  induction bs with
  | nil => intro no; rfl
  | cons b bs ih => intro no; simp [valPass, valBatch, ih]

/-- A validation pass leaves the loop state (the model parameters and the
optimizer state) unchanged. -/
theorem valPass_no (F : Framework) :
    ∀ (bs : List Batch) (no : NetOpt), (valPass F no bs).no = no := by
  intro bs
  induction bs with
  | nil => intro no; rfl
  | cons b bs ih => intro no; simp [valPass, valBatch, ih]

/-- A list of batch events contains no checkpoint record. -/
theorem ckptsOf_eq_nil (l : List TEv) (h : ∀ x ∈ l, isBatchEv x = true) :
    ckptsOf l = [] := by
  induction l with
  | nil => rfl
  | cons x l ih =>
    have hx := h x (List.mem_cons_self x l)
    have hl := ih fun y hy => h y (List.mem_cons_of_mem x hy)
    cases x <;> simp_all [ckptsOf, isBatchEv, ckptField]

/-- The loop state an epoch hands to the next epoch is the state produced by
its training pass: the validation pass in between does not modify it. -/
theorem epochBody_state (args : Args) (F : Framework) (trainB testB : List Batch)
    (nTrain nTest : ℤ) (no : NetOpt) (e : ℕ) :
    (epochBody args F trainB testB nTrain nTest no e).1 =
      (trainPass args F no trainB).no := by
  simp [epochBody, valPass_no]

/-- An epoch writes exactly one checkpoint: epoch index `e + 1`, architecture
tag alexnet, and the post-training-pass parameter and optimizer snapshots. -/
theorem epochBody_ckpts (args : Args) (F : Framework) (trainB testB : List Batch)
    (nTrain nTest : ℤ) (no : NetOpt) (e : ℕ) :
    ckptsOf (epochBody args F trainB testB nTrain nTest no e).2 =
      [(e + 1, "alexnet",
        (trainPass args F no trainB).no.params,
        (trainPass args F no trainB).no.ostate)] := by
  have ht := ckptsOf_eq_nil _ (trainPass_evs_batch args F trainB no)
  have hv : ckptsOf (valPass F (trainPass args F no trainB).no testB).evs = [] := by
    apply ckptsOf_eq_nil
    intro x hx
    rw [valPass_evs] at hx
    obtain ⟨b, hb, rfl⟩ := List.mem_map.1 hx
    rfl
  simp only [ckptsOf] at ht hv
  simp [epochBody, save_checkpoint, ckptsOf, List.filterMap_append, ht, hv,
        ckptField, valPass_no]

/-- No epoch ever reads a checkpoint back. -/
theorem epochBody_no_ckptRead (args : Args) (F : Framework) (trainB testB : List Batch)
    (nTrain nTest : ℤ) (no : NetOpt) (e : ℕ) :
    TEv.ckptRead ∉ (epochBody args F trainB testB nTrain nTest no e).2 := by
  intro hx
  simp [epochBody, save_checkpoint, valPass_evs] at hx
  have := trainPass_evs_batch args F trainB no _ hx
  simp [isBatchEv] at this

/-- Every per-epoch trace of the loop is an epoch-body trace. -/
theorem mem_loopEpochs (args : Args) (F : Framework) (trainB testB : List Batch)
    (nTrain nTest : ℤ) :
    ∀ (es : List ℕ) (no : NetOpt) (t : List TEv),
      t ∈ (loopEpochs args F trainB testB nTrain nTest no es).2 →
      ∃ (no2 : NetOpt) (e : ℕ),
        t = (epochBody args F trainB testB nTrain nTest no2 e).2 := by
  intro es
  induction es with
  | nil =>
    intro no t ht
    simp [loopEpochs] at ht
  | cons e es ih =>
    intro no t ht
    simp only [loopEpochs, List.mem_cons] at ht
    rcases ht with h | h
    · exact ⟨no, e, h⟩
    · exact ih _ t h

/-- The loop produces one per-epoch trace per epoch index. -/
theorem loopEpochs_length (args : Args) (F : Framework) (trainB testB : List Batch)
    (nTrain nTest : ℤ) :
    ∀ (es : List ℕ) (no : NetOpt),
      (loopEpochs args F trainB testB nTrain nTest no es).2.length = es.length := by
  intro es
  induction es with
  | nil => intro no; rfl
  | cons e es ih => intro no; simp [loopEpochs, ih]

/-- Per epoch index `e`, the loop writes exactly the one checkpoint record
with index `e + 1` and tag alexnet. -/
theorem loopEpochs_ckpt_map (args : Args) (F : Framework) (trainB testB : List Batch)
    (nTrain nTest : ℤ) :
    ∀ (es : List ℕ) (no : NetOpt),
      (loopEpochs args F trainB testB nTrain nTest no es).2.map
          (fun t => (ckptsOf t).map (fun c => (c.1, c.2.1))) =
        es.map (fun e => [(e + 1, "alexnet")]) := by
  intro es
  induction es with
  | nil => intro no; rfl
  | cons e es ih => intro no; simp [loopEpochs, ih, epochBody_ckpts]

/- Claim theorems about the training loop. -/

/-- C2: the divisor of the recorded average training loss is not the number
of training batches. Line 97 computes the exact quotient by true division:
for 5 samples and batch size 2 it yields 5/2, while the ceiling (the batch
count) is 3; for the CIFAR-10-like 50000 and 64 it yields 3125/4 = 781.25,
not 782. Concretely, an epoch over 3 unit-loss batches of a 5-sample dataset
records 3 / (5/2) = 6/5 as average loss, not 3/3. -/
theorem C2_divisor_not_batch_count :
    num_trainbatch 5 2 = 5/2 ∧
    (⌈(5 : ℚ) / 2⌉ : ℤ) = 3 ∧
    num_trainbatch 5 2 ≠ (3 : ℚ) ∧
    num_trainbatch 50000 64 = 3125/4 ∧
    (∀ (args : Args) (F : Framework) (trainB testB : List Batch)
       (nTrain nTest : ℤ) (no : NetOpt) (e : ℕ),
      TEv.addScalar "loss/train"
          ((trainPass args F no trainB).lossSum / num_trainbatch nTrain args.batch_size)
          (e + 1) ∈
        (epochBody args F trainB testB nTrain nTest no e).2) ∧
    (3 : ℚ) / num_trainbatch 5 2 = 6/5 ∧
    (6/5 : ℚ) ≠ 3/3 := by
  refine ⟨by norm_num [num_trainbatch], ?_, by norm_num [num_trainbatch],
          by norm_num [num_trainbatch], ?_, by norm_num [num_trainbatch], by norm_num⟩
  · rw [Int.ceil_eq_iff]
    norm_num
  · intro args F trainB testB nTrain nTest no e
    simp [epochBody]

/-- C3 counterexample: with `--normal` absent (blur mode), a validation batch
reaches the forward pass unmodified: the blur in the validation loop is
commented out, so no blurred version of the batch's images, for any kernel
size and sigma, ever reaches a forward pass there. -/
theorem C3_val_unblurred_counterexample :
    argsBlurSmall.normal = false ∧
    TEv.forward [Image.raw 0] ∈ (epochBody argsBlurSmall Fc [] [vb] 5 1 no0 0).2 ∧
    ∀ (k : ℤ × ℤ) (s : ℚ),
      TEv.forward (GaussianBlur_images [Image.raw 0] k s) ∉
        (epochBody argsBlurSmall Fc [] [vb] 5 1 no0 0).2 := by
  refine ⟨rfl, by decide, ?_⟩
  intro k s hmem
  simp [epochBody, trainPass, valPass, valBatch, save_checkpoint, GaussianBlur_images,
        argsBlurSmall, Fc, vb, no0, num_trainbatch, num_testbatch] at hmem

/-- C3 amended: in every training batch the images that reach the forward
pass are the batch's images blurred with the configured kernel size and sigma
when `--normal` is absent, and the unmodified images when `--normal` is
given; every validation batch reaches its forward pass unmodified regardless
of `--normal`. -/
theorem C3_blur_before_forward (args : Args) (F : Framework) (no : NetOpt) (b : Batch) :
    TEv.forward (if args.normal then b.images
        else GaussianBlur_images b.images args.kernel_size args.sigma) ∈
      (trainBatch args F no b).evs ∧
    TEv.forward b.images ∈ (valBatch F no b).evs := by
  constructor
  · cases h : args.normal <;> simp [trainBatch, h]
  · simp [valBatch]

/-- C4 counterexample: in a concrete epoch the train-metric logging event
occurs before the validation pass begins (before `net.eval()`), so the
claimed phase order "training pass, then validation pass, then metric
logging, then checkpoint save" does not hold: part of the metric logging
precedes the validation pass. -/
theorem C4_counterexample :
    ((epochBody argsNormalSmall Fc [b1] [vb] 5 1 no0 0).2).get? 5 =
      some (TEv.addScalar "loss/train" (2/5) 1) ∧
    ((epochBody argsNormalSmall Fc [b1] [vb] 5 1 no0 0).2).get? 7 = some TEv.netEval ∧
    5 < 7 := by
  refine ⟨?_, ?_, by norm_num⟩
  · simp [epochBody, trainPass, trainBatch, valPass, valBatch, save_checkpoint,
          argsNormalSmall, Fc, b1, vb, no0]
    norm_num [num_trainbatch]
  · simp [epochBody, trainPass, trainBatch, valPass, valBatch, save_checkpoint,
          argsNormalSmall, Fc, b1, vb, no0]

/-- C4 amended: for every run with a nonnegative epoch count the loop executes
exactly `args.epochs` epochs, and each per-epoch trace has the shape:
`net.train()`, the training batch events, the two train-metric logs, then
`net.eval()`, the validation forwards, the two validation-metric logs, and
the checkpoint save last. -/
theorem C4_epoch_structure (args : Args) (F : Framework) (trainB testB : List Batch)
    (nTrain nTest : ℤ) (no : NetOpt) (h : 0 ≤ args.epochs) :
    (((trainingLoop args F trainB testB nTrain nTest no).2.length : ℤ) = args.epochs) ∧
    ∀ t ∈ (trainingLoop args F trainB testB nTrain nTest no).2,
      ∃ (A B : List TEv) (l1 l2 l3 l4 : ℚ) (n p s : ℕ),
        t = TEv.netTrain :: A ++
            TEv.addScalar "loss/train" l1 n :: TEv.addScalar "acc/train" l2 n ::
            TEv.netEval :: B ++
            TEv.addScalar "loss/val" l3 n :: TEv.addScalar "acc/val" l4 n ::
            [TEv.ckptWrite n "alexnet" p s] ∧
        (∀ x ∈ A, isBatchEv x = true) ∧
        (∀ x ∈ B, ∃ imgs, x = TEv.forward imgs) := by
  constructor
  · rw [trainingLoop, loopEpochs_length, pyRange, List.length_range]
    exact Int.toNat_of_nonneg h
  · intro t ht
    obtain ⟨no2, e, rfl⟩ :=
      mem_loopEpochs args F trainB testB nTrain nTest (pyRange args.epochs) no t ht
    refine ⟨(trainPass args F no2 trainB).evs,
            (valPass F (trainPass args F no2 trainB).no testB).evs,
            (trainPass args F no2 trainB).lossSum / num_trainbatch nTrain args.batch_size,
            ((trainPass args F no2 trainB).accSum : ℚ) / (nTrain : ℚ),
            (valPass F (trainPass args F no2 trainB).no testB).lossSum /
              num_testbatch nTest args.batch_size,
            ((valPass F (trainPass args F no2 trainB).no testB).accSum : ℚ) / (nTest : ℚ),
            e + 1,
            (valPass F (trainPass args F no2 trainB).no testB).no.params,
            (valPass F (trainPass args F no2 trainB).no testB).no.ostate,
            ?_, trainPass_evs_batch args F trainB no2, ?_⟩
    · simp [epochBody, save_checkpoint]
    · intro x hx
      rw [valPass_evs] at hx
      obtain ⟨b, hb, rfl⟩ := List.mem_map.1 hx
      exact ⟨b.images, rfl⟩

/-- Witness for C4 amended at a concrete 2-epoch run. -/
theorem C4_epoch_structure_witness :
    (0 : ℤ) ≤ argsNormalSmall.epochs ∧
    ((((trainingLoop argsNormalSmall Fc [b1] [vb] 5 1 no0).2.length : ℤ) =
        argsNormalSmall.epochs) ∧
     ∀ t ∈ (trainingLoop argsNormalSmall Fc [b1] [vb] 5 1 no0).2,
       ∃ (A B : List TEv) (l1 l2 l3 l4 : ℚ) (n p s : ℕ),
         t = TEv.netTrain :: A ++
             TEv.addScalar "loss/train" l1 n :: TEv.addScalar "acc/train" l2 n ::
             TEv.netEval :: B ++
             TEv.addScalar "loss/val" l3 n :: TEv.addScalar "acc/val" l4 n ::
             [TEv.ckptWrite n "alexnet" p s] ∧
         (∀ x ∈ A, isBatchEv x = true) ∧
         (∀ x ∈ B, ∃ imgs, x = TEv.forward imgs)) :=
  ⟨by decide, C4_epoch_structure argsNormalSmall Fc [b1] [vb] 5 1 no0 (by decide)⟩

/-- C5: over any run, epoch `i` (1-based, for `i` in `1..args.epochs`) writes
exactly one checkpoint record, with epoch index `i` and architecture tag
alexnet (the record also carries the parameter and optimizer snapshots, see
`epochBody_ckpts`), and no checkpoint is ever read back. -/
theorem C5_one_checkpoint_per_epoch (args : Args) (F : Framework)
    (trainB testB : List Batch) (nTrain nTest : ℤ) (no : NetOpt) :
    (trainingLoop args F trainB testB nTrain nTest no).2.map
        (fun t => (ckptsOf t).map (fun c => (c.1, c.2.1))) =
      (List.range args.epochs.toNat).map (fun e => [(e + 1, "alexnet")]) ∧
    (∀ t ∈ (trainingLoop args F trainB testB nTrain nTest no).2,
      (ckptsOf t).length = 1) ∧
    (∀ t ∈ (trainingLoop args F trainB testB nTrain nTest no).2,
      TEv.ckptRead ∉ t) := by
  refine ⟨?_, ?_, ?_⟩
  · rw [trainingLoop, loopEpochs_ckpt_map, pyRange]
  · intro t ht
    obtain ⟨no2, e, rfl⟩ :=
      mem_loopEpochs args F trainB testB nTrain nTest (pyRange args.epochs) no t ht
    rw [epochBody_ckpts]
    rfl
  · intro t ht
    obtain ⟨no2, e, rfl⟩ :=
      mem_loopEpochs args F trainB testB nTrain nTest (pyRange args.epochs) no t ht
    exact epochBody_no_ckptRead args F trainB testB nTrain nTest no2 e

/-- C7: every training batch performs exactly one optimizer step (one step
event per batch, and over a pass as many steps as batches), while a
validation pass leaves the parameters and optimizer state unchanged and
performs no zero_grad, no backward and no optimizer step; the state an epoch
passes on is exactly its training pass's output state. -/
theorem C7_one_step_per_train_batch (args : Args) (F : Framework) (no : NetOpt)
    (b : Batch) (trainB testB : List Batch) (nTrain nTest : ℤ) (e : ℕ) :
    (trainBatch args F no b).evs.count TEv.optStep = 1 ∧
    (trainPass args F no trainB).evs.count TEv.optStep = trainB.length ∧
    (valPass F no testB).no = no ∧
    (valPass F no testB).evs.count TEv.optStep = 0 ∧
    (valPass F no testB).evs.count TEv.backward = 0 ∧
    (valPass F no testB).evs.count TEv.zeroGrad = 0 ∧
    (epochBody args F trainB testB nTrain nTest no e).1 =
      (trainPass args F no trainB).no := by
  refine ⟨?_, trainPass_count_optStep args F trainB no, valPass_no F testB no,
          ?_, ?_, ?_, epochBody_state args F trainB testB nTrain nTest no e⟩
  · simp [trainBatch, List.count_cons]
  · exact List.count_eq_zero.2 (by simp [valPass_evs])
  · exact List.count_eq_zero.2 (by simp [valPass_evs])
  · exact List.count_eq_zero.2 (by simp [valPass_evs])
